import Mathlib

/-
Verification of the DeepRacer_Configure notebook
(src/reinforcement_learning/deepracer-complex-simulation/DeepRacer_Configure.ipynb).

The notebook is a sequential configuration script: a region check (cell-5),
a try/except role resolution (cell-7), three Markdown-help calls
(cells 10/12/14), construction of a DeepRacerEngine façade (cell-16),
and two docker cleanup shell lines (cell-20).  The cells below are embedded
shallowly: the outcome of each external SDK call is a parameter, and the
control flow of each cell is translated directly.
-/

namespace DeepRacerConfigure

/-- A Python exception value: an exception class name together with its
message.  Outcomes of SDK calls that may raise are `Except PyErr α`. -/
inductive PyErr where
  | exn (name : String) (msg : String)
deriving DecidableEq, Repr

/-- A Python value as it appears in the notebook's configuration mapping:
either the null value `None` or a string. -/
inductive PyVal where
  | none
  | str (s : String)
deriving DecidableEq, Repr

/-! ### Cell-5: region check -/

/-- The allow-list of regions from cell-5 of the notebook. -/
def allowedRegions : List String := ["us-west-2", "us-east-1", "eu-west-1"]

/-- The fixed message of the exception raised in cell-5.  As in the Python
source, it is the concatenation of two adjacent string literals. -/
def regionErrorMsg : String :=
  "This notebook uses RoboMaker which is available only in US East (N. Virginia)," ++
  "US West (Oregon) and EU (Ireland). Please switch to one of these regions."

/-- Cell-5: `if aws_region not in [...]: raise Exception(...)`. -/
def checkRegion (aws_region : String) : Except String Unit :=
  if aws_region ∈ allowedRegions then Except.ok () else Except.error regionErrorMsg

/-! ### Cell-7: role resolution -/

/-- Equality of call outcomes is decidable. -/
instance {ε α : Type} [DecidableEq ε] [DecidableEq α] : DecidableEq (Except ε α) := fun x y =>
  match x, y with
  | Except.ok a, Except.ok b =>
    if h : a = b then isTrue (by rw [h])
    else isFalse (by intro hc; cases hc; exact h rfl)
  | Except.ok _, Except.error _ => isFalse (by intro hc; cases hc)
  | Except.error _, Except.ok _ => isFalse (by intro hc; cases hc)
  | Except.error e, Except.error f =>
    if h : e = f then isTrue (by rw [h])
    else isFalse (by intro hc; cases hc; exact h rfl)

/-- Observable trace of the cell-7 try/except: the resulting role (or the
exception that escaped), the list of arguments the fallback
`get_execution_role` was invoked with, and the list of primary failures the
cell logged (the cell logs nothing). -/
structure RoleTrace where
  result : Except PyErr String
  fallbackArgs : List String
  loggedFailures : List PyErr
deriving DecidableEq, Repr

/-- Cell-7: `try: sagemaker_role = sagemaker.get_execution_role()
except: sagemaker_role = get_execution_role('sagemaker')`.
`primary` is the outcome of `sagemaker.get_execution_role()`; `ger` maps an
argument string to the outcome of the utility `get_execution_role` call,
which the except-branch invokes unguarded. -/
def resolveRoleTraced (primary : Except PyErr String)
    (ger : String → Except PyErr String) : RoleTrace :=
  match primary with
  | Except.ok r => ⟨Except.ok r, [], []⟩
  | Except.error _ => ⟨ger "sagemaker", ["sagemaker"], []⟩

/-! ### Cells 5 and 7 in sequence -/

/-- Observable outcome of running cell-5 then cell-7: the region error that
was raised (if any), whether the role-resolution cell ran at all, and its
trace when it did. -/
structure SetupOutcome where
  raisedRegionError : Option String
  roleResolutionRan : Bool
  roleTrace : Option RoleTrace
deriving DecidableEq, Repr

/-- Sequential execution of cell-5 followed by cell-7: when the region check
raises, execution stops and cell-7 never runs. -/
def runSetup (aws_region : String) (primary : Except PyErr String)
    (ger : String → Except PyErr String) : SetupOutcome :=
  match checkRegion aws_region with
  | Except.error msg => ⟨some msg, false, Option.none⟩
  | Except.ok _ => ⟨Option.none, true, some (resolveRoleTraced primary ger)⟩

/-! ### Cell-20: docker cleanup shell lines -/

/-- A shell line of the shape used by cell-20: a program, its flags, a single
command-substitution argument, and (absent here) a trailing error handler
such as an or-else clause. -/
structure ShellInvocation where
  program : String
  flags : List String
  commandSubstitutionArg : String
  errorHandler : Option String
deriving DecidableEq, Repr

/-- Render a `ShellInvocation` back to its source text. -/
def renderShellInvocation (c : ShellInvocation) : String :=
  c.program ++ " " ++ String.intercalate " " c.flags ++
    " $(" ++ c.commandSubstitutionArg ++ ")" ++
    (match c.errorHandler with
     | Option.none => ""
     | some h => " " ++ h) ++ ";"

/-- First line of cell-20: `!docker rm -f $(docker ps -a -q);`. -/
def dockerRmContainers : ShellInvocation :=
  ⟨"docker rm", ["-f"], "docker ps -a -q", Option.none⟩

/-- Second line of cell-20: `!docker rmi -f $(docker images -q);`. -/
def dockerRmiImages : ShellInvocation :=
  ⟨"docker rmi", ["-f"], "docker images -q", Option.none⟩

/-! ### Cell-16: DeepRacerEngine construction and cleanup façade -/

/-- The configuration mapping literal of cell-16:
`DeepRacerEngine({'job_name':'None'})`.  The value is the string literal
`'None'`, not the null value. -/
def cell16Config : List (String × PyVal) := [("job_name", PyVal.str "None")]

/-- The cloud resources the cleanup façade can delete: the simulation jobs
and the S3 simulation artifacts of the account. -/
structure CloudState where
  simulations : List String
  s3SimulationResources : List String
deriving DecidableEq, Repr

/-- The engine façade: it stores the configuration mapping it was
constructed with. -/
structure DeepRacerEngine where
  config : List (String × PyVal)
deriving DecidableEq, Repr

/-- Modelled from the spec: the `DeepRacerEngine` constructor
(`src/core/DeepRacerEngine.py`, not part of the supplied source) is a thin
wrapper whose construction only stores the configuration mapping and prints
a banner; it issues no delete requests, so the cloud state is unchanged and
no exception is raised. -/
def constructEngine (config : List (String × PyVal)) (st : CloudState) :
    Except PyErr DeepRacerEngine × CloudState :=
  (Except.ok ⟨config⟩, st)

/-- Modelled from the spec: `delete_all_simulations` issues delete requests
against the account's simulation jobs; it takes no arguments and returns no
observable value. -/
def DeepRacerEngine.delete_all_simulations (_ : DeepRacerEngine)
    (st : CloudState) : CloudState :=
  { st with simulations := [] }

/-- Modelled from the spec: `delete_s3_simulation_resources` deletes the
simulation artifacts stored in the S3 bucket; it takes no arguments and
returns no observable value. -/
def DeepRacerEngine.delete_s3_simulation_resources (_ : DeepRacerEngine)
    (st : CloudState) : CloudState :=
  { st with s3SimulationResources := [] }

/-- Modelled from the spec: the engine names its simulation jobs internally
(here from a submission counter); the `job_name` value of the configuration
mapping is a label only and, as cell-16 notes, is not used for the
simulation job names. -/
def DeepRacerEngine.simulationJobName (_ : DeepRacerEngine)
    (counter : Nat) : String :=
  "deepracer-simulation-" ++ toString counter

/-! ### Markdown-help generators (imported from markdown_helper) -/

/-- Modelled from the spec: `generate_help_for_robomaker_trust_relationship`
(from `markdown_helper`, not part of the supplied source) is a pure
function mapping a role identifier string to a formatted instructional
string that tells the user to add, in the IAM console, a trust relationship
letting the RoboMaker and SageMaker service principals assume that role. -/
def generate_help_for_robomaker_trust_relationship (role : String) : String :=
  "Please add a trust relationship for the RoboMaker and SageMaker service principals, granting sts:AssumeRole, to the role " ++
    role ++ " via the Trust relationships tab of the IAM console."

/-- Modelled from the spec: `generate_s3_write_permission_for_sagemaker_role`
(from `markdown_helper`, not part of the supplied source) is a pure
function mapping a role identifier string to a formatted instructional
string about attaching S3 write permission to that role. -/
def generate_s3_write_permission_for_sagemaker_role (role : String) : String :=
  "Please attach the AmazonS3FullAccess policy, so that objects can be written to the bucket, to the role " ++
    role ++ " via the Permissions tab of the IAM console."

/-- Modelled from the spec:
`generate_kinesis_create_permission_for_sagemaker_role` (from
`markdown_helper`, not part of the supplied source) is a pure function
mapping a role identifier string to a formatted instructional string about
attaching Kinesis video stream creation permission to that role. -/
def generate_kinesis_create_permission_for_sagemaker_role (role : String) : String :=
  "Please attach the AmazonKinesisVideoStreamsFullAccess policy, so that video streams can be created, to the role " ++
    role ++ " via the Permissions tab of the IAM console."

/-! ## Claims -/

/-- Claim C1: for every region string not in the allow-list, the region
check raises the fixed configuration error message, role resolution does
not run, and there is no side effect beyond raising (no role trace, no
fallback invocation). -/
theorem region_check_rejects_unlisted (region : String)
    (h : region ∉ allowedRegions) (primary : Except PyErr String)
    (ger : String → Except PyErr String) :
    runSetup region primary ger = ⟨some regionErrorMsg, false, Option.none⟩ := by
  simp [runSetup, checkRegion, h]

/-- Witness for C1: at the concrete region "ap-southeast-2", which is not
allow-listed, the setup raises the fixed message and cell-7 never runs. -/
theorem region_check_rejects_unlisted_witness :
    "ap-southeast-2" ∉ allowedRegions ∧
    runSetup "ap-southeast-2" (Except.ok "arn:aws:iam::123:role/r")
        (fun _ => Except.ok "arn:aws:iam::123:role/fb") =
      ⟨some regionErrorMsg, false, Option.none⟩ :=
  ⟨by decide,
   region_check_rejects_unlisted "ap-southeast-2" (by decide)
     (Except.ok "arn:aws:iam::123:role/r")
     (fun _ => Except.ok "arn:aws:iam::123:role/fb")⟩

/-- Claim C7: each of the three allow-listed regions passes the region
check without raising, and execution continues to role resolution. -/
theorem region_check_accepts_allowed (primary : Except PyErr String)
    (ger : String → Except PyErr String) :
    (runSetup "us-west-2" primary ger).raisedRegionError = Option.none ∧
    (runSetup "us-west-2" primary ger).roleResolutionRan = true ∧
    (runSetup "us-east-1" primary ger).raisedRegionError = Option.none ∧
    (runSetup "us-east-1" primary ger).roleResolutionRan = true ∧
    (runSetup "eu-west-1" primary ger).raisedRegionError = Option.none ∧
    (runSetup "eu-west-1" primary ger).roleResolutionRan = true :=
  ⟨rfl, rfl, rfl, rfl, rfl, rfl⟩

/-- Claim C2: role resolution returns the primary result whenever
`sagemaker.get_execution_role()` succeeds, and returns the result of the
fallback `get_execution_role` called with the literal argument "sagemaker"
whenever the primary call raises. -/
theorem role_resolution_primary_then_fallback (r : String) (e : PyErr)
    (ger : String → Except PyErr String) :
    (resolveRoleTraced (Except.ok r) ger).result = Except.ok r ∧
    (resolveRoleTraced (Except.error e) ger).result = ger "sagemaker" :=
  ⟨rfl, rfl⟩

/-- Claim C4: the fallback path is taken on any exception kind without
distinguishing kinds, nothing is logged, the fallback is invoked with
exactly the argument "sagemaker", and when the fallback itself fails its
error propagates as-is — the original failure is not re-raised. -/
theorem fallback_any_kind_unguarded (e e' : PyErr)
    (ger : String → Except PyErr String) (e2 : PyErr)
    (h : ger "sagemaker" = Except.error e2) :
    (resolveRoleTraced (Except.error e) ger).result =
      (resolveRoleTraced (Except.error e') ger).result ∧
    (resolveRoleTraced (Except.error e) ger).result = Except.error e2 ∧
    (resolveRoleTraced (Except.error e) ger).loggedFailures = [] ∧
    (resolveRoleTraced (Except.error e) ger).fallbackArgs = ["sagemaker"] := by
  refine ⟨rfl, ?_, rfl, rfl⟩
  simpa [resolveRoleTraced] using h

/-- Witness for C4: with a concrete primary ValueError and a fallback that
itself raises a concrete RoleError, the RoleError (not the ValueError)
escapes and nothing is logged. -/
theorem fallback_any_kind_unguarded_witness :
    (resolveRoleTraced (Except.error (PyErr.exn "ValueError" "no notebook"))
        (fun _ => Except.error (PyErr.exn "RoleError" "cannot create"))).result =
      Except.error (PyErr.exn "RoleError" "cannot create") ∧
    (resolveRoleTraced (Except.error (PyErr.exn "ValueError" "no notebook"))
        (fun _ => Except.error (PyErr.exn "RoleError" "cannot create"))).loggedFailures = [] :=
  ⟨(fallback_any_kind_unguarded (PyErr.exn "ValueError" "no notebook")
      (PyErr.exn "TypeError" "other")
      (fun _ => Except.error (PyErr.exn "RoleError" "cannot create"))
      (PyErr.exn "RoleError" "cannot create") rfl).2.1,
   (fallback_any_kind_unguarded (PyErr.exn "ValueError" "no notebook")
      (PyErr.exn "TypeError" "other")
      (fun _ => Except.error (PyErr.exn "RoleError" "cannot create"))
      (PyErr.exn "RoleError" "cannot create") rfl).2.2.1⟩

/-- Claim C10: when the primary call succeeds, the fallback is never
invoked — its argument list is empty — and no other side effect occurs on
the success path. -/
theorem no_fallback_on_success (r : String)
    (ger : String → Except PyErr String) :
    resolveRoleTraced (Except.ok r) ger = ⟨Except.ok r, [], []⟩ :=
  rfl

/-- Counterexample for C3: the claim says the cleanup shell invocations
carry no flags, but both lines of cell-20 carry the force flag "-f". -/
theorem docker_cleanup_has_flags :
    ¬ (dockerRmContainers.flags = [] ∧ dockerRmiImages.flags = []) := by
  decide

/-- Claim C3 (amended): the cleanup shell invocations bulk-remove all
containers and all images — each carries exactly the force flag "-f", the
listing subcommands target all containers / all images, and there is no
error handling; rendering the structures reproduces the source lines. -/
theorem docker_cleanup_force_no_error_handling :
    dockerRmContainers.flags = ["-f"] ∧
    dockerRmContainers.commandSubstitutionArg = "docker ps -a -q" ∧
    dockerRmContainers.errorHandler = Option.none ∧
    dockerRmiImages.flags = ["-f"] ∧
    dockerRmiImages.commandSubstitutionArg = "docker images -q" ∧
    dockerRmiImages.errorHandler = Option.none ∧
    renderShellInvocation dockerRmContainers = "docker rm -f $(docker ps -a -q);" ∧
    renderShellInvocation dockerRmiImages = "docker rmi -f $(docker images -q);" :=
  ⟨rfl, rfl, rfl, rfl, rfl, rfl, rfl, rfl⟩

/-- Claim C5: constructing the engine with the cell-16 configuration
raises nothing and leaves the cloud state untouched; simulations and S3
artifacts are deleted only by explicitly invoking the cleanup methods. -/
theorem engine_construction_no_raise_no_deletion (st : CloudState) :
    (constructEngine cell16Config st).1 = Except.ok ⟨cell16Config⟩ ∧
    (constructEngine cell16Config st).2 = st ∧
    ((⟨cell16Config⟩ : DeepRacerEngine).delete_all_simulations st).simulations = [] ∧
    ((⟨cell16Config⟩ : DeepRacerEngine).delete_s3_simulation_resources st).s3SimulationResources = [] :=
  ⟨rfl, rfl, rfl, rfl⟩

/-- Claim C6: each of the three Markdown-help generators is a pure function
whose output contains the supplied role identifier string verbatim. -/
theorem markdown_helpers_contain_role (role : String) :
    (∃ p s, generate_help_for_robomaker_trust_relationship role = p ++ role ++ s) ∧
    (∃ p s, generate_s3_write_permission_for_sagemaker_role role = p ++ role ++ s) ∧
    (∃ p s, generate_kinesis_create_permission_for_sagemaker_role role = p ++ role ++ s) :=
  ⟨⟨"Please add a trust relationship for the RoboMaker and SageMaker service principals, granting sts:AssumeRole, to the role ",
    " via the Trust relationships tab of the IAM console.", rfl⟩,
   ⟨"Please attach the AmazonS3FullAccess policy, so that objects can be written to the bucket, to the role ",
    " via the Permissions tab of the IAM console.", rfl⟩,
   ⟨"Please attach the AmazonKinesisVideoStreamsFullAccess policy, so that video streams can be created, to the role ",
    " via the Permissions tab of the IAM console.", rfl⟩⟩

/-- Claim C8: the `job_name` configuration value is a label only — for any
two values bound to it, the engine produces identical simulation job
names. -/
theorem job_name_not_used_for_simulation_names (a b : PyVal) (n : Nat) :
    (DeepRacerEngine.mk [("job_name", a)]).simulationJobName n =
      (DeepRacerEngine.mk [("job_name", b)]).simulationJobName n :=
  rfl

/-- Claim C9: the value bound to "job_name" in the cell-16 configuration is
the four-character string literal "None", not the null value. -/
theorem job_name_is_string_literal :
    cell16Config.lookup "job_name" = some (PyVal.str "None") ∧
    PyVal.str "None" ≠ PyVal.none := by
  decide

end DeepRacerConfigure
